import Mathlib

/-!
Shallow embedding of the resilient search-and-qualify pipeline of
`scraper_utils.py` (with `script.py` and `buildiumscripttest.py` as callers):
the backend resolver `get_candidates`, the page qualifier
`count_pattern_on_page`, and the crawl orchestrator `search_and_filter` /
`run_search`.

External effects are oracles:
  * the search backends are the lists/functions a call would return
    (`_serpapi_search` and `_ddg_search` return `[]` on failure or when
    unconfigured; a raised exception of `_google_search` is `none`);
  * one `requests.get` call is a `FetchOutcome`: either a response
    (status code and body text) or one of the exception classes the
    source catches;
  * BeautifulSoup's `visible_text` and the compiled regex's
    `len(pattern.findall ...)` are abstract functions
    `visible : String → String` and `findallCount : String → Nat`.
Sleeping, jitter, user-agent rotation and logging have no logical effect
on the returned values and are not modelled.
-/

namespace ScraperUtils

/-- `RETRY_STATUS = {429, 500, 502, 503, 504}`: HTTP status codes that the
page qualifier retries with backoff (scraper_utils.py line 121). -/
def RETRY_STATUS : List Nat := [429, 500, 502, 503, 504]

/-- `MAX_RESULTS_CAP = 1000`: safety cap on the pagination size
(scraper_utils.py line 117). -/
def MAX_RESULTS_CAP : Int := 1000

/-- The frozen dataclass `SearchConfig` (scraper_utils.py lines 130-135).
Python `int` fields become `Int`; the dataclass performs no validation of
its fields. The `sleep_sec : float` field only controls real-time
throttling and has no effect on any returned value, so it is omitted. -/
structure SearchConfig where
  target_count : Int := 10
  results_per_page : Int := 5
  deriving Repr, DecidableEq

/-- Outcome of one `requests.get` call inside `count_pattern_on_page`:
a response with a status code and a body text, or one of the exception
classes the source catches (lines 309-320).  `timeoutErr`,
`connectionErr`, `chunkedErr` are `requests.exceptions.Timeout`,
`ConnectionError`, `ChunkedEncodingError` (the transient clause);
`httpErr`, `requestErr`, `decodeErr` are `HTTPError`, any other
`RequestException`, and `UnicodeDecodeError` (the permanent clause). -/
inductive FetchOutcome where
  | response (status : Nat) (body : String)
  | timeoutErr
  | connectionErr
  | chunkedErr
  | httpErr
  | requestErr
  | decodeErr
  deriving Repr, DecidableEq

/-- The exception classes of the first `except` clause of
`count_pattern_on_page` (Timeout / ConnectionError / ChunkedEncodingError):
these are retried. -/
def FetchOutcome.transient : FetchOutcome → Bool
  | .timeoutErr | .connectionErr | .chunkedErr => true
  | _ => false

/-- The exception classes of the second `except` clause of
`count_pattern_on_page` (HTTPError / RequestException / UnicodeDecodeError):
these return 0 at once. -/
def FetchOutcome.permanent : FetchOutcome → Bool
  | .httpErr | .requestErr | .decodeErr => true
  | _ => false

/-- A fetch outcome from which `count_pattern_on_page` can actually produce
a pattern count: a response whose status is neither in `RETRY_STATUS` nor
in the `raise_for_status` range 400-599. -/
def FetchOutcome.cleanOk : FetchOutcome → Bool
  | .response status _ => decide (status < 400) || decide (600 ≤ status)
  | _ => false

/-- `tries = 3` in `count_pattern_on_page` (line 283). -/
def tries : Nat := 3

/-- The retry loop of `count_pattern_on_page` (lines 285-320).  `attempt`
is the 1-based attempt number, `remaining` the number of attempts still
allowed including the current one (`tries - attempt + 1`); `fetch n` is the
outcome of the n-th `requests.get`.  Returns the value the function
returns together with the number of fetch attempts actually made.
A response with a status in `RETRY_STATUS` retries while attempts remain
and yields 0 once they run out; `resp.raise_for_status()` turns a 400-599
status into an `HTTPError`, caught by the permanent clause (0, at once);
otherwise the body's visible text is extracted (when `only_visible`) and
the pattern occurrences are counted.  Transient exceptions retry like the
retryable statuses; permanent exceptions yield 0 at once. -/
def cppRetry (findallCount : String → Nat) (visible : String → String)
    (only_visible : Bool) (fetch : Nat → FetchOutcome) :
    Nat → Nat → Nat × Nat
  | _, 0 => (0, 0)
  | attempt, remaining + 1 =>
    match fetch attempt with
    | .response status body =>
      if status ∈ RETRY_STATUS then
        if 0 < remaining then
          let r := cppRetry findallCount visible only_visible fetch (attempt + 1) remaining
          (r.1, r.2 + 1)
        else (0, 1)
      else if 400 ≤ status ∧ status < 600 then (0, 1)
      else
        let content := if only_visible then visible body else body
        (findallCount content, 1)
    | .timeoutErr | .connectionErr | .chunkedErr =>
      if 0 < remaining then
        let r := cppRetry findallCount visible only_visible fetch (attempt + 1) remaining
        (r.1, r.2 + 1)
      else (0, 1)
    | .httpErr | .requestErr | .decodeErr => (0, 1)

/-- `count_pattern_on_page` (scraper_utils.py lines 272-320), as the value
returned together with the number of fetch attempts made.  The compiled
pattern and BeautifulSoup are the abstract `findallCount` and `visible`;
`only_visible` defaults to `true` as in the source. -/
def count_pattern_on_page (findallCount : String → Nat)
    (visible : String → String) (fetch : Nat → FetchOutcome)
    (only_visible : Bool := true) : Nat × Nat :=
  cppRetry findallCount visible only_visible fetch 1 tries

/-- Python's `\s` class on the ASCII range, as used by `PRICE_REGEX`. -/
def isSpaceChar (c : Char) : Bool :=
  c = ' ' || c = '\t' || c = '\n' || c = '\x0b' || c = '\x0c' || c = '\r'

/-- Left-to-right scan counting the non-overlapping matches of the
compiled pattern `\$\s*\d` (`PRICE_REGEX` in script.py line 17 and
buildiumscripttest.py line 26), exactly as `len(pattern.findall(text))`
counts them: the scanner resumes after the final digit of each match.
`pending` records that a `$` has been read, followed so far only by
whitespace, so the match closes at the next digit; any other character
aborts the attempt (a fresh `$` starts a new one). -/
def priceScan : List Char → Bool → Nat
  | [], _ => 0
  | c :: rest, pending =>
    if pending then
      if c.isDigit then priceScan rest false + 1
      else if isSpaceChar c then priceScan rest true
      else priceScan rest (c = '$')
    else priceScan rest (c = '$')

/-- `len(PRICE_REGEX.findall s)` for the pattern `\$\s*\d`. -/
def countPriceMatches (s : String) : Nat := priceScan s.data false

/-- The three search backends of `get_candidates`, in preference order
(scraper_utils.py lines 218-259). -/
inductive Backend where
  | serpapi
  | ddg
  | google
  deriving Repr, DecidableEq

/-- The `googlesearch` fallback loop of `get_candidates` (lines 237-256):
it iterates over `BACKOFFS + [None]` (4 iterations), returns the first
non-empty result list, and otherwise proceeds to the next iteration —
the 429/backoff distinction only selects a log message and a sleep, every
failed or empty iteration continues while iterations remain.  `google n`
is the outcome of the n-th `_google_search` call (`none` = it raised). -/
def googleLoop (google : Nat → Option (List String)) :
    Nat → Nat → Option (List String)
  | 0, _ => none
  | n + 1, attempt =>
    match google attempt with
    | some urls => if urls ≠ [] then some urls else googleLoop google n (attempt + 1)
    | none => googleLoop google n (attempt + 1)

/-- `get_candidates` (scraper_utils.py lines 218-259): SerpAPI first, then
DuckDuckGo, then — only when `DISABLE_GOOGLE` is off — the googlesearch
fallback loop; when nothing produced results it raises
`RuntimeError("No search backend returned results.")`, modelled as `none`.
`sa` and `ddg` are the lists `_serpapi_search` and `_ddg_search` return
(each returns `[]` when unconfigured or on failure).  The second component
records which backends were invoked, in order. -/
def get_candidates (sa ddg : List String) (disable_google : Bool)
    (google : Nat → Option (List String)) :
    Option (List String) × List Backend :=
  if sa ≠ [] then (some sa, [.serpapi])
  else if ddg ≠ [] then (some ddg, [.serpapi, .ddg])
  else if disable_google then (none, [.serpapi, .ddg])
  else (googleLoop google 4 1, [.serpapi, .ddg, .google])

/-- State of one run of the crawl loop of `search_and_filter`
(lines 336-337): the `seen` set (modelled as the list of its members,
most recently added first), the `qualifying` accumulator, the trace of
URLs passed to `count_pattern_on_page` (one entry per page
qualification), and the number of `get_candidates` calls made. -/
structure CrawlState where
  seen : List String
  qualifying : List String
  fetched : List String
  resolverCalls : Nat
  deriving Repr, DecidableEq

/-- The empty state both accumulators start from (lines 336-337). -/
def CrawlState.init : CrawlState := ⟨[], [], [], 0⟩

/-- Bookkeeping for one `get_candidates` call (line 342). -/
def CrawlState.bumpResolver (st : CrawlState) : CrawlState :=
  ⟨st.seen, st.qualifying, st.fetched, st.resolverCalls + 1⟩

/-- The body of the inner loop for one previously-unseen URL
(lines 352-356): mark it seen, qualify the page (`qc url` is the value of
`count_pattern_on_page(url, pattern)`, recorded in the fetch trace), and
append the URL when the count reaches `min_occurrences`. -/
def qualifyStep (qc : String → Nat) (min_occurrences : Int) (url : String)
    (st : CrawlState) : CrawlState :=
  if min_occurrences ≤ (qc url : Int) then
    ⟨url :: st.seen, st.qualifying ++ [url], st.fetched ++ [url], st.resolverCalls⟩
  else
    ⟨url :: st.seen, st.qualifying, st.fetched ++ [url], st.resolverCalls⟩

/-- The inner `for url in candidates` loop of `search_and_filter`
(lines 347-362): stop once the target is reached, skip URLs already seen,
otherwise run `qualifyStep`. -/
def processCandidates (qc : String → Nat) (min_occurrences target_count : Int) :
    List String → CrawlState → CrawlState
  | [], st => st
  | url :: rest, st =>
    if target_count ≤ (st.qualifying.length : Int) then st
    else if url ∈ st.seen then
      processCandidates qc min_occurrences target_count rest st
    else
      processCandidates qc min_occurrences target_count rest
        (qualifyStep qc min_occurrences url st)

/-- The outer `while` loop of `search_and_filter` (lines 340-365): while
fewer than `target_count` URLs qualify and `num_results` has not passed
`MAX_RESULTS_CAP`, call `get_candidates` (`resolve round` is the outcome
of the `round`-th call, `none` = it raised, which breaks the loop),
process the candidates, and grow `num_results` by `results_per_page`.
`fuel` bounds the recursion: with `results_per_page ≥ 1` the source loop
runs at most 1000 rounds, so fuel 1001 reproduces it exactly. -/
def crawlLoop (resolve : Nat → Option (List String)) (qc : String → Nat)
    (min_occurrences : Int) (cfg : SearchConfig) :
    Nat → Nat → Int → CrawlState → CrawlState
  | 0, _, _, st => st
  | fuel + 1, round, num_results, st =>
    if ((st.qualifying.length : Int) < cfg.target_count ∧ num_results ≤ MAX_RESULTS_CAP) then
      match resolve round with
      | none => st.bumpResolver
      | some candidates =>
        crawlLoop resolve qc min_occurrences cfg fuel (round + 1)
          (num_results + cfg.results_per_page)
          (processCandidates qc min_occurrences cfg.target_count candidates
            st.bumpResolver)
    else st

/-- The final state of one run of `search_and_filter` (lines 325-367),
starting from empty accumulators and `num_results = results_per_page`. -/
def searchAndFilterState (resolve : Nat → Option (List String))
    (qc : String → Nat) (min_occurrences : Int) (cfg : SearchConfig) :
    CrawlState :=
  crawlLoop resolve qc min_occurrences cfg 1001 0 cfg.results_per_page CrawlState.init

/-- The Python slice `xs[:t]` for an `int` bound `t`: the first `t`
elements when `t ≥ 0`, everything except the last `-t` elements when
`t < 0` (empty when `-t` reaches the length). -/
def pySliceTo (xs : List String) (t : Int) : List String :=
  if 0 ≤ t then xs.take t.toNat
  else xs.take (xs.length - (-t).toNat)

/-- `search_and_filter` (scraper_utils.py lines 325-367): the list the
run returns, `qualifying[:config.target_count]`.  The `query` string and
the compiled `pattern` live inside the oracles `resolve` and `qc`. -/
def search_and_filter (resolve : Nat → Option (List String))
    (qc : String → Nat) (min_occurrences : Int) (cfg : SearchConfig) :
    List String :=
  pySliceTo (searchAndFilterState resolve qc min_occurrences cfg).qualifying
    cfg.target_count

/-- `run_search` (lines 370-382): a thin wrapper around
`search_and_filter` with the same arguments. -/
def run_search (resolve : Nat → Option (List String)) (qc : String → Nat)
    (min_occurrences : Int) (cfg : SearchConfig) : List String :=
  search_and_filter resolve qc min_occurrences cfg

/-- `search_and_filter` composed with the real qualifier: the per-URL
count is `count_pattern_on_page` on that URL's fetch outcomes
(line 354), with the source's default `only_visible = true`. -/
def searchAndFilterFetch (resolve : Nat → Option (List String))
    (findallCount : String → Nat) (visible : String → String)
    (fetchOf : String → Nat → FetchOutcome) (min_occurrences : Int)
    (cfg : SearchConfig) : List String :=
  search_and_filter resolve
    (fun url => (count_pattern_on_page findallCount visible (fetchOf url)).1)
    min_occurrences cfg

/-- The final state of `searchAndFilterFetch`'s run. -/
def searchAndFilterFetchState (resolve : Nat → Option (List String))
    (findallCount : String → Nat) (visible : String → String)
    (fetchOf : String → Nat → FetchOutcome) (min_occurrences : Int)
    (cfg : SearchConfig) : CrawlState :=
  searchAndFilterState resolve
    (fun url => (count_pattern_on_page findallCount visible (fetchOf url)).1)
    min_occurrences cfg

/-- Invariant tying the crawl state's accumulators to its seen set: the
qualifying list and the fetch trace are duplicate-free and every entry of
either has been marked seen. -/
structure CrawlInv (st : CrawlState) : Prop where
  nodupQ : st.qualifying.Nodup
  nodupF : st.fetched.Nodup
  qSub : ∀ u, u ∈ st.qualifying → u ∈ st.seen
  fSub : ∀ u, u ∈ st.fetched → u ∈ st.seen

/-! ### Helper lemmas -/

theorem nodup_append_fresh {l : List String} {a : String}
    (h : l.Nodup) (ha : a ∉ l) : (l ++ [a]).Nodup := by
  rw [List.nodup_append]
  exact ⟨h, List.nodup_singleton a, fun u hu hv => ha (List.mem_singleton.mp hv ▸ hu)⟩

theorem qualifyStep_seen (qc : String → Nat) (m : Int) (url : String)
    (st : CrawlState) : (qualifyStep qc m url st).seen = url :: st.seen := by
  unfold qualifyStep
  split <;> rfl

theorem qualifyStep_fetched (qc : String → Nat) (m : Int) (url : String)
    (st : CrawlState) : (qualifyStep qc m url st).fetched = st.fetched ++ [url] := by
  unfold qualifyStep
  split <;> rfl

theorem qualifyStep_inv (qc : String → Nat) (m : Int) (url : String)
    (st : CrawlState) (h : CrawlInv st) (hu : url ∉ st.seen) :
    CrawlInv (qualifyStep qc m url st) := by
  unfold qualifyStep
  split
  · refine ⟨nodup_append_fresh h.nodupQ (fun hq => hu (h.qSub url hq)),
      nodup_append_fresh h.nodupF (fun hf => hu (h.fSub url hf)), ?_, ?_⟩
    · intro u hmem
      rcases List.mem_append.mp hmem with hq | hs
      · exact List.mem_cons_of_mem _ (h.qSub u hq)
      · rw [List.mem_singleton.mp hs]
        exact List.mem_cons_self url st.seen
    · intro u hmem
      rcases List.mem_append.mp hmem with hf | hs
      · exact List.mem_cons_of_mem _ (h.fSub u hf)
      · rw [List.mem_singleton.mp hs]
        exact List.mem_cons_self url st.seen
  · refine ⟨h.nodupQ, nodup_append_fresh h.nodupF (fun hf => hu (h.fSub url hf)),
      fun u hq => List.mem_cons_of_mem _ (h.qSub u hq), ?_⟩
    intro u hmem
    rcases List.mem_append.mp hmem with hf | hs
    · exact List.mem_cons_of_mem _ (h.fSub u hf)
    · rw [List.mem_singleton.mp hs]
      exact List.mem_cons_self url st.seen

theorem pc_seen_mono (qc : String → Nat) (m t : Int) :
    ∀ (cands : List String) (st : CrawlState),
      st.seen ⊆ (processCandidates qc m t cands st).seen := by
  intro cands
  induction cands with
  | nil =>
    intro st
    simp [processCandidates]
  | cons url rest ih =>
    intro st
    rw [processCandidates]
    split
    · exact fun _ h => h
    · split
      · exact ih st
      · intro u hu
        refine ih (qualifyStep qc m url st) ?_
        rw [qualifyStep_seen]
        exact List.mem_cons_of_mem _ hu

theorem pc_inv (qc : String → Nat) (m t : Int) :
    ∀ (cands : List String) (st : CrawlState), CrawlInv st →
      CrawlInv (processCandidates qc m t cands st) := by
  intro cands
  induction cands with
  | nil =>
    intro st h
    simpa [processCandidates] using h
  | cons url rest ih =>
    intro st h
    rw [processCandidates]
    split
    · exact h
    · split
      · exact ih st h
      · rename_i h1 h2
        exact ih _ (qualifyStep_inv qc m url st h h2)

theorem pc_fetched_or_new (qc : String → Nat) (m t : Int) :
    ∀ (cands : List String) (st : CrawlState) (u : String),
      u ∈ (processCandidates qc m t cands st).fetched →
      u ∈ st.fetched ∨ u ∉ st.seen := by
  intro cands
  induction cands with
  | nil =>
    intro st u hu
    left
    simpa [processCandidates] using hu
  | cons url rest ih =>
    intro st u hu
    rw [processCandidates] at hu
    split at hu
    · exact Or.inl hu
    · split at hu
      · exact ih st u hu
      · rename_i h1 h2
        rcases ih _ u hu with hf | hs

        · rw [qualifyStep_fetched] at hf
          rcases List.mem_append.mp hf with hf | he
          · exact Or.inl hf
          · right
            rw [List.mem_singleton.mp he]
            exact h2
        · rw [qualifyStep_seen] at hs
          exact Or.inr fun hmem => hs (List.mem_cons_of_mem _ hmem)

theorem pc_qual_eq_fetched (qc : String → Nat) (m t : Int) (hm : m ≤ 0) :
    ∀ (cands : List String) (st : CrawlState),
      st.qualifying = st.fetched →
      (processCandidates qc m t cands st).qualifying
        = (processCandidates qc m t cands st).fetched := by
  intro cands
  induction cands with
  | nil =>
    intro st h
    simpa [processCandidates] using h
  | cons url rest ih =>
    intro st h
    rw [processCandidates]
    split
    · exact h
    · split
      · exact ih st h
      · refine ih _ ?_
        unfold qualifyStep
        rw [if_pos (le_trans hm (Int.natCast_nonneg (qc url)))]
        simpa using congrArg (· ++ [url]) h

theorem crawlLoop_stop (resolve : Nat → Option (List String)) (qc : String → Nat)
    (m : Int) (cfg : SearchConfig) (fuel round : Nat) (nr : Int) (st : CrawlState)
    (h : ¬ ((st.qualifying.length : Int) < cfg.target_count ∧ nr ≤ MAX_RESULTS_CAP)) :
    crawlLoop resolve qc m cfg fuel round nr st = st := by
  cases fuel with
  | zero => rfl
  | succ n =>
    rw [crawlLoop, if_neg h]

theorem loop_seen_mono (resolve : Nat → Option (List String)) (qc : String → Nat)
    (m : Int) (cfg : SearchConfig) :
    ∀ (fuel round : Nat) (nr : Int) (st : CrawlState),
      st.seen ⊆ (crawlLoop resolve qc m cfg fuel round nr st).seen := by
  intro fuel
  induction fuel with
  | zero =>
    intro round nr st
    simp [crawlLoop]
  | succ n ih =>
    intro round nr st
    rw [crawlLoop]
    split
    · split
      · exact fun _ h => h
      · intro u hu
        exact ih _ _ _ (pc_seen_mono qc m cfg.target_count _ st.bumpResolver hu)
    · exact fun _ h => h

theorem loop_inv (resolve : Nat → Option (List String)) (qc : String → Nat)
    (m : Int) (cfg : SearchConfig) :
    ∀ (fuel round : Nat) (nr : Int) (st : CrawlState), CrawlInv st →
      CrawlInv (crawlLoop resolve qc m cfg fuel round nr st) := by
  intro fuel
  induction fuel with
  | zero =>
    intro round nr st h
    simpa [crawlLoop] using h
  | succ n ih =>
    intro round nr st h
    rw [crawlLoop]
    split
    · split
      · exact ⟨h.nodupQ, h.nodupF, h.qSub, h.fSub⟩
      · exact ih _ _ _ (pc_inv qc m cfg.target_count _ st.bumpResolver
          ⟨h.nodupQ, h.nodupF, h.qSub, h.fSub⟩)
    · exact h

theorem loop_qual_eq_fetched (resolve : Nat → Option (List String))
    (qc : String → Nat) (m : Int) (cfg : SearchConfig) (hm : m ≤ 0) :
    ∀ (fuel round : Nat) (nr : Int) (st : CrawlState),
      st.qualifying = st.fetched →
      (crawlLoop resolve qc m cfg fuel round nr st).qualifying
        = (crawlLoop resolve qc m cfg fuel round nr st).fetched := by
  intro fuel
  induction fuel with
  | zero =>
    intro round nr st h
    simpa [crawlLoop] using h
  | succ n ih =>
    intro round nr st h
    rw [crawlLoop]
    split
    · split
      · exact h
      · exact ih _ _ _ (pc_qual_eq_fetched qc m cfg.target_count hm _ st.bumpResolver h)
    · exact h

theorem crawlLoop_resolve_fail (resolve : Nat → Option (List String))
    (qc : String → Nat) (m : Int) (cfg : SearchConfig)
    (h : ∀ n, resolve n = none) :
    ∀ (fuel round : Nat) (nr : Int) (st : CrawlState),
      (crawlLoop resolve qc m cfg fuel round nr st).qualifying = st.qualifying := by
  intro fuel
  cases fuel with
  | zero => intro round nr st; rfl
  | succ n =>
    intro round nr st
    rw [crawlLoop]
    split
    · rw [h round]
      rfl
    · rfl

theorem pySliceTo_nil (t : Int) : pySliceTo [] t = [] := by
  unfold pySliceTo
  split <;> simp

theorem pySliceTo_sublist (xs : List String) (t : Int) :
    (pySliceTo xs t).Sublist xs := by
  unfold pySliceTo
  split <;> exact List.take_sublist _ _

theorem pySliceTo_length_le {xs : List String} {t : Int} (h : 0 ≤ t) :
    ((pySliceTo xs t).length : Int) ≤ t := by
  unfold pySliceTo
  rw [if_pos h]
  have hlen : (xs.take t.toNat).length ≤ t.toNat := by
    rw [List.length_take]
    exact min_le_left _ _
  calc ((xs.take t.toNat).length : Int) ≤ (t.toNat : Int) := by exact_mod_cast hlen
    _ = t := Int.toNat_of_nonneg h

theorem init_inv : CrawlInv CrawlState.init :=
  ⟨List.nodup_nil, List.nodup_nil,
    fun u h => absurd h (List.not_mem_nil u),
    fun u h => absurd h (List.not_mem_nil u)⟩

theorem cppRetry_all_bad (findallCount : String → Nat) (visible : String → String)
    (ov : Bool) (fetch : Nat → FetchOutcome)
    (h : ∀ i, (fetch i).cleanOk = false) :
    ∀ (r a : Nat), (cppRetry findallCount visible ov fetch a r).1 = 0 := by
  intro r
  induction r with
  | zero => intro a; rfl
  | succ n ih =>
    intro a
    rw [cppRetry]
    split
    · rename_i status body heq
      have hc := h a
      rw [heq] at hc
      simp only [FetchOutcome.cleanOk, Bool.or_eq_false_iff, decide_eq_false_iff_not,
        not_lt] at hc
      split
      · split
        · simp [ih]
        · rfl
      · rw [if_pos ⟨hc.1, by omega⟩]
    all_goals try rfl
    all_goals (split <;> simp [ih])

theorem cppRetry_always_timeout (findallCount : String → Nat)
    (visible : String → String) (ov : Bool) (fetch : Nat → FetchOutcome)
    (h : ∀ i, fetch i = FetchOutcome.timeoutErr) :
    ∀ (r a : Nat), 0 < r → cppRetry findallCount visible ov fetch a r = (0, r) := by
  intro r
  induction r with
  | zero => intro a h0; omega
  | succ n ih =>
    intro a _
    simp only [cppRetry, h]
    by_cases hn : 0 < n
    · rw [if_pos hn, ih (a + 1) hn]
    · have hn0 : n = 0 := by omega
      subst hn0
      rfl

theorem cppRetry_snd_pos (findallCount : String → Nat) (visible : String → String)
    (ov : Bool) (fetch : Nat → FetchOutcome) :
    ∀ (r a : Nat), 0 < r → 1 ≤ (cppRetry findallCount visible ov fetch a r).2 := by
  intro r
  induction r with
  | zero => intro a h0; omega
  | succ n _ =>
    intro a _
    rw [cppRetry]
    split
    · split
      · split
        · exact Nat.le_add_left 1 _
        · exact le_refl 1
      · split
        · exact le_refl 1
        · exact le_refl 1
    all_goals try exact le_refl 1
    all_goals (split
               · exact Nat.le_add_left 1 _
               · exact le_refl 1)

theorem cppRetry_permanent_first (findallCount : String → Nat)
    (visible : String → String) (ov : Bool) (fetch : Nat → FetchOutcome)
    (a n : Nat) (h : (fetch a).permanent = true) :
    cppRetry findallCount visible ov fetch a (n + 1) = (0, 1) := by
  cases hf : fetch a with
  | response s b => rw [hf] at h; simp [FetchOutcome.permanent] at h
  | timeoutErr => rw [hf] at h; simp [FetchOutcome.permanent] at h
  | connectionErr => rw [hf] at h; simp [FetchOutcome.permanent] at h
  | chunkedErr => rw [hf] at h; simp [FetchOutcome.permanent] at h
  | httpErr => simp [cppRetry, hf]
  | requestErr => simp [cppRetry, hf]
  | decodeErr => simp [cppRetry, hf]

theorem cppRetry_response_client_error (findallCount : String → Nat)
    (visible : String → String) (ov : Bool) (fetch : Nat → FetchOutcome)
    (a n s : Nat) (b : String) (hf : fetch a = .response s b)
    (h1 : s ∉ RETRY_STATUS) (h2 : 400 ≤ s) (h3 : s < 600) :
    cppRetry findallCount visible ov fetch a (n + 1) = (0, 1) := by
  simp [cppRetry, hf, h1, h2, h3]

theorem cppRetry_clean_success (findallCount : String → Nat)
    (visible : String → String) (ov : Bool) (fetch : Nat → FetchOutcome)
    (a n s : Nat) (b : String) (hf : fetch a = .response s b) (h2 : s < 400) :
    cppRetry findallCount visible ov fetch a (n + 1) =
      (findallCount (if ov then visible b else b), 1) := by
  have h1 : s ∉ RETRY_STATUS := by
    intro hm
    simp [RETRY_STATUS] at hm
    omega
  have h4 : ¬ (400 ≤ s ∧ s < 600) := by omega
  simp [cppRetry, hf, h1, h4]

theorem cppRetry_transient_first (findallCount : String → Nat)
    (visible : String → String) (ov : Bool) (fetch : Nat → FetchOutcome)
    (a n : Nat) (h : (fetch a).transient = true) :
    cppRetry findallCount visible ov fetch a (n + 2) =
      ((cppRetry findallCount visible ov fetch (a + 1) (n + 1)).1,
       (cppRetry findallCount visible ov fetch (a + 1) (n + 1)).2 + 1) := by
  cases hf : fetch a with
  | response s b => rw [hf] at h; simp [FetchOutcome.transient] at h
  | httpErr => rw [hf] at h; simp [FetchOutcome.transient] at h
  | requestErr => rw [hf] at h; simp [FetchOutcome.transient] at h
  | decodeErr => rw [hf] at h; simp [FetchOutcome.transient] at h
  | timeoutErr => simp [cppRetry, hf]
  | connectionErr => simp [cppRetry, hf]
  | chunkedErr => simp [cppRetry, hf]

theorem googleLoop_none (google : Nat → Option (List String)) :
    ∀ (n a : Nat), googleLoop google n a = none →
      ∀ i, a ≤ i → i < a + n → google i = none ∨ google i = some [] := by
  intro n
  induction n with
  | zero => intro a _ i h1 h2; omega
  | succ k ih =>
    intro a h i h1 h2
    rw [googleLoop] at h
    split at h
    · rename_i urls heq
      split at h
      · exact absurd h (by simp)
      · rename_i hne
        have hurls : urls = [] := by
          by_contra hc
          exact hne hc
        by_cases hia : i = a
        · subst hia
          right
          rw [heq, hurls]
        · exact ih (a + 1) h i (by omega) (by omega)
    · rename_i heq
      by_cases hia : i = a
      · subst hia
        exact Or.inl heq
      · exact ih (a + 1) h i (by omega) (by omega)

/-! ### Claims -/

/-- C1 (amended): for every resolver, qualifier, `min_occurrences` and
config, the list `search_and_filter` returns (and `run_search`, which is
identical to it) has length at most `max 0 config.target_count`; in
particular at most `target_count` whenever `target_count ≥ 0`.  The
original bound `length ≤ target_count` fails for negative `target_count`,
where the Python slice `qualifying[:target_count]` still returns `[]` of
length `0 > target_count`. -/
theorem C1_length_le_target :
    ∀ (resolve : Nat → Option (List String)) (qc : String → Nat)
      (m : Int) (cfg : SearchConfig),
      ((search_and_filter resolve qc m cfg).length : Int) ≤ max 0 cfg.target_count
      ∧ run_search resolve qc m cfg = search_and_filter resolve qc m cfg := by
  intro resolve qc m cfg
  refine ⟨?_, rfl⟩
  by_cases h : 0 ≤ cfg.target_count
  · exact le_trans (pySliceTo_length_le h) (le_max_right 0 _)
  · push_neg at h
    have hstop : crawlLoop resolve qc m cfg 1001 0 cfg.results_per_page
        CrawlState.init = CrawlState.init := by
      apply crawlLoop_stop
      rintro ⟨h1, -⟩
      simp only [CrawlState.init, List.length_nil, Nat.cast_zero] at h1
      omega
    unfold search_and_filter searchAndFilterState
    rw [hstop]
    show ((pySliceTo [] cfg.target_count).length : Int) ≤ _
    rw [pySliceTo_nil]
    simp

/-- C1, counterexample to the claim as stated: with
`target_count = -1` (a value the frozen `SearchConfig` dataclass accepts
unchecked) the run returns the empty list, whose length 0 is **not**
at most `target_count`. -/
theorem C1_counterexample :
    ¬ (((search_and_filter (fun _ => none) (fun _ => 0) 1
          ⟨-1, 5⟩).length : Int) ≤ (⟨-1, 5⟩ : SearchConfig).target_count) := by
  decide

/-- C2: within one run, the returned list holds no URL twice, no URL is
passed to the page qualifier (fetched) twice, the seen set only ever
grows — through the inner candidate loop and through whole rounds of the
outer loop — and a URL fetched during a candidate pass was either fetched
earlier or was not yet in the seen set when the pass began (already-seen
candidates are skipped before qualification). -/
theorem C2_dedup_and_seen_monotone :
    ∀ (resolve : Nat → Option (List String)) (qc : String → Nat)
      (m : Int) (cfg : SearchConfig),
      (search_and_filter resolve qc m cfg).Nodup
      ∧ (searchAndFilterState resolve qc m cfg).fetched.Nodup
      ∧ (∀ (cands : List String) (st : CrawlState),
          st.seen ⊆ (processCandidates qc m cfg.target_count cands st).seen)
      ∧ (∀ (fuel round : Nat) (nr : Int) (st : CrawlState),
          st.seen ⊆ (crawlLoop resolve qc m cfg fuel round nr st).seen)
      ∧ (∀ (cands : List String) (st : CrawlState) (u : String),
          u ∈ (processCandidates qc m cfg.target_count cands st).fetched →
          u ∈ st.fetched ∨ u ∉ st.seen) := by
  intro resolve qc m cfg
  have hinv : CrawlInv (searchAndFilterState resolve qc m cfg) :=
    loop_inv resolve qc m cfg 1001 0 cfg.results_per_page CrawlState.init init_inv
  exact ⟨(pySliceTo_sublist _ _).nodup hinv.nodupQ, hinv.nodupF,
    fun cands st => pc_seen_mono qc m cfg.target_count cands st,
    fun fuel round nr st => loop_seen_mono resolve qc m cfg fuel round nr st,
    fun cands st u => pc_fetched_or_new qc m cfg.target_count cands st u⟩

/-- C3: the page qualifier never raises — it is a total function of the
fetch outcomes — and whenever no fetch attempt yields a usable response
(every attempt is an exception, a retryable status, or a status that
`raise_for_status` turns into an error), it returns the non-qualifying
match count 0 instead of propagating the error. -/
theorem C3_errors_degrade_to_zero :
    ∀ (findallCount : String → Nat) (visible : String → String)
      (fetch : Nat → FetchOutcome),
      (∀ i, (fetch i).cleanOk = false) →
      (count_pattern_on_page findallCount visible fetch).1 = 0 := by
  intro findallCount visible fetch h
  exact cppRetry_all_bad findallCount visible true fetch h tries 1

/-- C3, witness: a fetch that always raises `HTTPError` yields count 0. -/
theorem C3_witness :
    (count_pattern_on_page (fun _ => 0) (fun s => s)
      (fun _ => FetchOutcome.httpErr)).1 = 0 :=
  C3_errors_degrade_to_zero (fun _ => 0) (fun s => s)
    (fun _ => FetchOutcome.httpErr) (fun _ => rfl)

/-- C4: when the first fetch succeeds with a non-error status, the
qualifier returns exactly the number of pattern matches in the page's
visible text (in one attempt); a fresh URL is appended by the
orchestrator iff that count reaches `min_occurrences`; and on the spec's
example — visible text `"Price: $100 and $200"`, pattern `\$\s*\d` — the
count is 2, so the page qualifies with `min_occurrences = 2` and does not
with `min_occurrences = 3`. -/
theorem C4_qualify_iff_count :
    ∀ (findallCount : String → Nat) (visible : String → String)
      (fetch : Nat → FetchOutcome) (status : Nat) (body : String)
      (m t : Int) (st : CrawlState) (url : String),
      fetch 1 = .response status body → status < 400 →
      (count_pattern_on_page findallCount visible fetch
          = (findallCount (visible body), 1)
      ∧ ((st.qualifying.length : Int) < t → url ∉ st.seen →
          ((processCandidates
              (fun _ => (count_pattern_on_page findallCount visible fetch).1)
              m t [url] st).qualifying = st.qualifying ++ [url]
            ↔ m ≤ (findallCount (visible body) : Int)))
      ∧ countPriceMatches "Price: $100 and $200" = 2
      ∧ (processCandidates
            (fun _ => (count_pattern_on_page countPriceMatches
              (fun _ => "Price: $100 and $200") (fun _ => .response 200 "")).1)
            2 10 ["https://example.com"] .init).qualifying = ["https://example.com"]
      ∧ (processCandidates
            (fun _ => (count_pattern_on_page countPriceMatches
              (fun _ => "Price: $100 and $200") (fun _ => .response 200 "")).1)
            3 10 ["https://example.com"] .init).qualifying = []) := by
  intro findallCount visible fetch status body m t st url hf hs
  have hcount : count_pattern_on_page findallCount visible fetch
      = (findallCount (visible body), 1) :=
    cppRetry_clean_success findallCount visible true fetch 1 2 status body hf hs
  refine ⟨hcount, ?_, by decide, by decide, by decide⟩
  intro hlen hseen
  rw [processCandidates, if_neg (by omega), if_neg hseen, processCandidates]
  unfold qualifyStep
  rw [hcount]
  split
  · rename_i hq
    simp only [true_iff, hq]
  · rename_i hq
    constructor
    · intro habs
      exact absurd (congrArg List.length habs) (by simp)
    · intro hc
      exact absurd hc hq

/-- C4, witness: the spec's example page, fetched successfully on the
first attempt, yields count 2 and qualifies at threshold 2. -/
theorem C4_witness :
    (processCandidates
        (fun _ => (count_pattern_on_page countPriceMatches
          (fun _ => "Price: $100 and $200") (fun _ => .response 200 "")).1)
        2 10 ["https://example.com"] .init).qualifying = ["https://example.com"] :=
  (C4_qualify_iff_count countPriceMatches (fun _ => "Price: $100 and $200")
    (fun _ => .response 200 "") 200 "" 2 10 .init "https://example.com"
    rfl (by decide)).2.2.2.1

/-- C5: when every resolver call fails (raises), the run terminates with
whatever has accumulated — nothing, since the resolver already fails in
the first round — and returns the empty list instead of raising. -/
theorem C5_resolver_failure_soft_stop :
    ∀ (resolve : Nat → Option (List String)) (qc : String → Nat)
      (m : Int) (cfg : SearchConfig),
      (∀ n, resolve n = none) →
      search_and_filter resolve qc m cfg = []
      ∧ (searchAndFilterState resolve qc m cfg).qualifying = [] := by
  intro resolve qc m cfg h
  have hq : (searchAndFilterState resolve qc m cfg).qualifying = [] :=
    crawlLoop_resolve_fail resolve qc m cfg h 1001 0 cfg.results_per_page
      CrawlState.init
  refine ⟨?_, hq⟩
  unfold search_and_filter
  rw [hq, pySliceTo_nil]

/-- C5, witness: an always-failing resolver with the default config
produces the empty list. -/
theorem C5_witness :
    search_and_filter (fun _ => none) (fun _ => 0) 1 ⟨10, 5⟩ = [] :=
  (C5_resolver_failure_soft_stop (fun _ => none) (fun _ => 0) 1 ⟨10, 5⟩
    (fun _ => rfl)).1

/-- C6: `get_candidates` tries the backends in preference order — a
non-empty SerpAPI result is returned with DuckDuckGo and Google never
invoked; a non-empty DuckDuckGo result is returned with Google never
invoked — and it fails (raises "No search backend returned results",
modelled as `none`) only when SerpAPI and DuckDuckGo produced nothing
and, when the Google fallback is enabled, each of its 4 loop iterations
either raised or returned no results. -/
theorem C6_first_success_wins :
    ∀ (sa ddg : List String) (dg : Bool) (google : Nat → Option (List String)),
      (sa ≠ [] → get_candidates sa ddg dg google = (some sa, [.serpapi]))
      ∧ (sa = [] → ddg ≠ [] →
          get_candidates sa ddg dg google = (some ddg, [.serpapi, .ddg]))
      ∧ ((get_candidates sa ddg dg google).1 = none →
          sa = [] ∧ ddg = []
          ∧ (dg = false →
              ∀ i, 1 ≤ i → i < 5 → google i = none ∨ google i = some [])) := by
  intro sa ddg dg google
  refine ⟨fun hsa => by simp [get_candidates, hsa],
    fun hsa hddg => by simp [get_candidates, hsa, hddg], fun hnone => ?_⟩
  by_cases hsa : sa = []
  · by_cases hddg : ddg = []
    · refine ⟨hsa, hddg, ?_⟩
      intro hdg i h1 h2
      subst hdg
      simp only [get_candidates, hsa, hddg, ne_eq, not_true_eq_false, if_false,
        Bool.false_eq_true, ite_false] at hnone
      exact googleLoop_none google 4 1 hnone i h1 (by omega)
    · exact absurd hnone (by simp [get_candidates, hsa, hddg])
  · exact absurd hnone (by simp [get_candidates, hsa])

/-- C7 (amended): an invalid `target_count ≤ 0` is *not* rejected — the
frozen dataclass performs no validation and `search_and_filter` raises no
error.  What does hold is the second half of the claim: no search or
fetch (network) activity takes place — the final state is the initial
one, with zero resolver calls and an empty fetch trace — and the run
returns the empty list. -/
theorem C7_amended_no_eager_rejection :
    ∀ (resolve : Nat → Option (List String)) (qc : String → Nat)
      (m : Int) (cfg : SearchConfig),
      cfg.target_count ≤ 0 →
      searchAndFilterState resolve qc m cfg = CrawlState.init
      ∧ search_and_filter resolve qc m cfg = [] := by
  intro resolve qc m cfg h
  have hs : searchAndFilterState resolve qc m cfg = CrawlState.init := by
    unfold searchAndFilterState
    apply crawlLoop_stop
    rintro ⟨h1, -⟩
    simp only [CrawlState.init, List.length_nil, Nat.cast_zero] at h1
    omega
  refine ⟨hs, ?_⟩
  unfold search_and_filter
  rw [hs]
  exact pySliceTo_nil _

/-- C7, counterexample to the claim as stated: with `target_count = 0`
and a resolver that would return candidates, the run does not fail — it
returns the normal value `[]`, and its final state is the initial state:
the configuration error was never rejected, the run simply completed
(performing, as the true half of the claim says, no resolver call and no
fetch). -/
theorem C7_counterexample :
    (⟨0, 5⟩ : SearchConfig).target_count = 0
    ∧ searchAndFilterState (fun _ => some ["https://a"]) (fun _ => 5) 1 ⟨0, 5⟩
        = CrawlState.init
    ∧ search_and_filter (fun _ => some ["https://a"]) (fun _ => 5) 1 ⟨0, 5⟩ = [] := by
  refine ⟨rfl, ?_, ?_⟩ <;> decide

/-- C7, witness for the amended claim at a concrete invalid config. -/
theorem C7_witness :
    search_and_filter (fun _ => some ["https://a", "https://b"]) (fun _ => 7) 2
      ⟨-3, 4⟩ = [] :=
  (C7_amended_no_eager_rejection (fun _ => some ["https://a", "https://b"])
    (fun _ => 7) 2 ⟨-3, 4⟩ (by decide)).2

/-- C8 (amended): only the *permanent* exception classes — `HTTPError`,
other `RequestException`s, `UnicodeDecodeError` (decode failure) — and a
non-retryable 4xx/5xx status make the qualifier classify the URL
non-qualifying immediately with exactly one fetch attempt; a timeout or
connection failure is *not* immediate — it is a transient error that
triggers at least a second fetch attempt. -/
theorem C8_permanent_errors_immediate :
    ∀ (findallCount : String → Nat) (visible : String → String)
      (fetch : Nat → FetchOutcome) (status : Nat) (body : String),
      ((fetch 1).permanent = true →
        count_pattern_on_page findallCount visible fetch = (0, 1))
      ∧ (fetch 1 = .response status body → 400 ≤ status → status < 600 →
          status ∉ RETRY_STATUS →
          count_pattern_on_page findallCount visible fetch = (0, 1))
      ∧ ((fetch 1).transient = true →
          2 ≤ (count_pattern_on_page findallCount visible fetch).2) := by
  intro findallCount visible fetch status body
  refine ⟨fun h => cppRetry_permanent_first findallCount visible true fetch 1 2 h,
    fun hf h1 h2 h3 =>
      cppRetry_response_client_error findallCount visible true fetch 1 2 status
        body hf h3 h1 h2,
    fun h => ?_⟩
  have hstep := cppRetry_transient_first findallCount visible true fetch 1 1 h
  have e : (1 : Nat) + 1 = 2 := rfl
  show 2 ≤ (cppRetry findallCount visible true fetch 1 (1 + 2)).2
  rw [hstep, e]
  have := cppRetry_snd_pos findallCount visible true fetch 2 2 (by omega)
  omega

/-- C8, counterexample to the claim as stated: a URL whose fetch raises a
timeout — a network-level error that is not in the retryable-status
path — is retried: the qualifier makes 3 fetch attempts, not exactly
one. -/
theorem C8_counterexample :
    FetchOutcome.timeoutErr.transient = true
    ∧ (count_pattern_on_page (fun _ => 0) (fun s => s)
        (fun _ => FetchOutcome.timeoutErr)).2 = 3 := by
  exact ⟨rfl, by decide⟩

/-- C9: a page whose fetch always times out is classified non-qualifying
(count 0) after exhausting the whole retry budget, and the number of
fetch attempts made is exactly the configured attempt count
`tries = 3`. -/
theorem C9_timeout_exhausts_budget :
    ∀ (findallCount : String → Nat) (visible : String → String)
      (fetch : Nat → FetchOutcome),
      (∀ i, fetch i = FetchOutcome.timeoutErr) →
      count_pattern_on_page findallCount visible fetch = (0, tries)
      ∧ tries = 3 := by
  intro findallCount visible fetch h
  exact ⟨cppRetry_always_timeout findallCount visible true fetch h tries 1
    (by decide), rfl⟩

/-- C9, witness: the always-timeout fetch, evaluated. -/
theorem C9_witness :
    count_pattern_on_page (fun _ => 0) (fun s => s)
      (fun _ => FetchOutcome.timeoutErr) = (0, tries) :=
  (C9_timeout_exhausts_budget (fun _ => 0) (fun s => s)
    (fun _ => FetchOutcome.timeoutErr) (fun _ => rfl)).1

/-- C10 (implicit): for `min_occurrences ≤ 0` every previously-unseen
candidate qualifies — the run's qualifying accumulator is exactly its
fetch trace, whatever the fetch outcomes (including URLs whose fetch
fails, since the qualifier's error path returns count 0 and
`0 ≥ min_occurrences` holds), and the returned list is the truncated
fetch trace. -/
theorem C10_nonpositive_threshold_accepts_all :
    ∀ (resolve : Nat → Option (List String)) (findallCount : String → Nat)
      (visible : String → String) (fetchOf : String → Nat → FetchOutcome)
      (cfg : SearchConfig) (m : Int),
      m ≤ 0 →
      (searchAndFilterFetchState resolve findallCount visible fetchOf m cfg).qualifying
        = (searchAndFilterFetchState resolve findallCount visible fetchOf m cfg).fetched
      ∧ searchAndFilterFetch resolve findallCount visible fetchOf m cfg
        = pySliceTo
            (searchAndFilterFetchState resolve findallCount visible fetchOf m cfg).fetched
            cfg.target_count := by
  intro resolve findallCount visible fetchOf cfg m hm
  have h : (searchAndFilterFetchState resolve findallCount visible fetchOf m cfg).qualifying
      = (searchAndFilterFetchState resolve findallCount visible fetchOf m cfg).fetched := by
    unfold searchAndFilterFetchState searchAndFilterState
    exact loop_qual_eq_fetched _ _ m _ hm 1001 0 cfg.results_per_page
      CrawlState.init rfl
  refine ⟨h, ?_⟩
  unfold searchAndFilterFetch search_and_filter
  rw [← h]
  rfl

/-- C10, witness: threshold 0 with fetches that always time out — both
candidate URLs are fetched and both are appended. -/
theorem C10_witness :
    (searchAndFilterFetchState (fun _ => some ["u", "v"]) (fun _ => 0) (fun s => s)
        (fun _ _ => FetchOutcome.timeoutErr) 0 ⟨2, 5⟩).qualifying
      = (searchAndFilterFetchState (fun _ => some ["u", "v"]) (fun _ => 0) (fun s => s)
        (fun _ _ => FetchOutcome.timeoutErr) 0 ⟨2, 5⟩).fetched :=
  (C10_nonpositive_threshold_accepts_all (fun _ => some ["u", "v"]) (fun _ => 0)
    (fun s => s) (fun _ _ => FetchOutcome.timeoutErr) ⟨2, 5⟩ 0 (by decide)).1

end ScraperUtils
